import Mathlib

/-!
# Verification of the TTS pipeline in `src/utils/common.py`

Shallow embedding of the content filter (`filter_content_for_tts`), the LRU
audio cache (`TTSCache`), the bounded-concurrency task manager
(`AsyncTTSManager`), and the message stores (`GlobalVal`) of the
xiaozhi-douyin-live repository, together with theorems settling the frozen
claims about the natural-language specification.

Modelling conventions:
- Python strings are `List Char` (Unicode code points, as in Python).
- Python floats (timestamps, durations) are `ℚ`; the float comparison
  `digit_count / len > 0.5` is modelled exactly as `len < 2 * digit_count`.
- Audio byte strings are `List Nat`; Python truthiness of audio data is
  `≠ []` (both `None` and `b""` are falsy, and `_generate_tts_with_timeout`
  returns `(None, 0, 0)` on timeout/failure, modelled as `([], 0, 0)`).
- Python dicts keyed by strings/uuids are association lists; dict deletion
  is `List.filter` on the key (keys are unique in every reachable dict, so
  this agrees with `dict.pop`).
- Recursions that are not structural are written with an explicit fuel
  argument equal to the input length (always sufficient, since every step
  consumes at least one character), so that all definitions reduce in the
  kernel.
-/

namespace TTSPipeline

/-! ## Configuration constants (config.py and module-level constants) -/

/-- Constant `TTS_MAX_CONCURRENT = 3` (src/utils/common.py line 18). -/
def TTS_MAX_CONCURRENT : Nat := 3

/-- Constant `TTS_TASK_TIMEOUT = 10` seconds (src/utils/common.py line 19). -/
def TTS_TASK_TIMEOUT : ℚ := 10

/-- Constant `TTS_CACHE_SIZE = 200` (config.py line 33). -/
def TTS_CACHE_SIZE : Nat := 200

/-- Constant `TTS_THROTTLE_INTERVAL = 1.0` seconds (config.py line 36). -/
def TTS_THROTTLE_INTERVAL : ℚ := 1

/-- Constant `GlobalVal.MAX_MESSAGE_COUNT = 5` (src/utils/common.py line 421). -/
def MAX_MESSAGE_COUNT : Nat := 5

/-! ## Python string helpers -/

/-- Python `str.strip()` whitespace test (ASCII whitespace suffices for the
text domain of this program). -/
def isPyWs (c : Char) : Bool := c.isWhitespace

/-- Python `str.strip()`: remove leading and trailing whitespace. -/
def pyStrip (l : List Char) : List Char :=
  ((l.dropWhile isPyWs).reverse.dropWhile isPyWs).reverse

/-- Python `str.lower()` (ASCII case folding; the CJK characters appearing in
this program's data have no case). -/
def pyLower (l : List Char) : List Char := l.map Char.toLower

/-- Python `c.isdigit()` for the ASCII digits occurring in this program. -/
def isPyDigit (c : Char) : Bool := c.isDigit

/-- Python `str.isalpha()` per character: true for Unicode letters; modelled
for ASCII letters plus the CJK Unified Ideographs block U+4E00–U+9FFF (the
letters occurring in this program's data). -/
def isPyAlpha (c : Char) : Bool :=
  c.isAlpha || (decide (0x4e00 ≤ c.toNat) && decide (c.toNat ≤ 0x9fff))

/-- Number of distinct elements, Python `len(set(x))` computed as the length
of this list of distinct characters. -/
def distinctChars : List Char → List Char
  | [] => []
  | c :: rest =>
    let r := distinctChars rest
    if c ∈ r then r else c :: r

/-- Python substring test `needle in hay`. -/
def containsSeq (needle : List Char) : List Char → Bool
  | [] => needle.isEmpty
  | c :: rest => needle.isPrefixOf (c :: rest) || containsSeq needle rest

/-- Python `str.split()` (split on whitespace runs, dropping empties), with
fuel; fuel `l.length` is always sufficient. -/
def splitWsGo : Nat → List Char → List (List Char)
  | 0, _ => []
  | _ + 1, [] => []
  | fuel + 1, c :: rest =>
    if isPyWs c then splitWsGo fuel rest
    else (c :: rest.takeWhile (fun x => !isPyWs x)) ::
      splitWsGo fuel (rest.dropWhile (fun x => !isPyWs x))

/-- Python `str.split()`. -/
def splitWs (l : List Char) : List (List Char) := splitWsGo l.length l

/-- Python `' '.join(words)`. -/
def joinWords (ws : List (List Char)) : List Char := List.intercalate [' '] ws

/-! ## Content filter (`filter_content_for_tts`, src/utils/common.py 23–116) -/

/-- Character class of the regex `[一-鿿\w]` used for bracketed
emotion tags (line 41): CJK Unified Ideographs, word characters. -/
def isTagWordChar (c : Char) : Bool :=
  c.isAlphanum || c = '_' ||
    (decide (0x4e00 ≤ c.toNat) && decide (c.toNat ≤ 0x9fff))

/-- The substitution `re.sub(r'\[[一-鿿\w]+\]', '', s)` (line 41): remove every
non-overlapping leftmost occurrence of `[` + 1 or more tag-word characters +
`]`; on a failed match at a `[`, scanning resumes at the next character.
Fuel `l.length` is always sufficient. -/
def stripTagsGo : Nat → List Char → List Char
  | 0, l => l
  | _ + 1, [] => []
  | fuel + 1, c :: rest =>
    if c = '[' then
      match rest.takeWhile isTagWordChar, rest.dropWhile isTagWordChar with
      | _ :: _, ']' :: tail => stripTagsGo fuel tail
      | _, _ => c :: stripTagsGo fuel rest
    else c :: stripTagsGo fuel rest

/-- Bracketed emotion-tag removal (line 41). -/
def stripTags (l : List Char) : List Char := stripTagsGo l.length l

/-- The `unwanted_punctuation` string of line 45, character by character
(Python adjacent string literals concatenate; duplicates are irrelevant to
`replace`): `'' " ' ` ~ ! @ # $ % ^ & * ( ) _ + = { } [ ] | \ : ; " < > ? /
. , ， 。 ； ： '`. -/
def unwantedPunctuation : List Char :=
  [Char.ofNat 0x27, Char.ofNat 0x27, Char.ofNat 0x22, Char.ofNat 0x27,
   Char.ofNat 0x60, Char.ofNat 0x7e, Char.ofNat 0x5c, Char.ofNat 0x21,
   Char.ofNat 0x40, Char.ofNat 0x23, Char.ofNat 0x24, Char.ofNat 0x25,
   Char.ofNat 0x5e, Char.ofNat 0x26, Char.ofNat 0x2a, Char.ofNat 0x28,
   Char.ofNat 0x29, Char.ofNat 0x5f, Char.ofNat 0x2b, Char.ofNat 0x3d,
   Char.ofNat 0x7b, Char.ofNat 0x7d, Char.ofNat 0x5b, Char.ofNat 0x5d,
   Char.ofNat 0x7c, Char.ofNat 0x3a, Char.ofNat 0x3b, Char.ofNat 0x22,
   Char.ofNat 0x3c, Char.ofNat 0x3e, Char.ofNat 0x3f, Char.ofNat 0x2f,
   Char.ofNat 0x2e, Char.ofNat 0x2c, Char.ofNat 0xff0c, Char.ofNat 0x3002,
   Char.ofNat 0xff1b, Char.ofNat 0xff1a, Char.ofNat 0x27]

/-- Modelled from the spec: `get_string_no_punctuation_or_emoji`
(src/core/utils/util.py, a file not present in the sources) — step 2 of the
spec's filter algorithm: "Strip leading/trailing punctuation and emoji
glyphs". Punctuation is modelled as ASCII punctuation, the program's CJK
punctuation, and emoji as code points ≥ U+1F000. -/
def get_string_no_punctuation_or_emoji (l : List Char) : List Char :=
  let isPunctOrEmoji : Char → Bool := fun c =>
    (c.toNat < 128 && !(c.isAlphanum || c.isWhitespace)) ||
    c ∈ [Char.ofNat 0xff0c, Char.ofNat 0x3002, Char.ofNat 0xff1b,
         Char.ofNat 0xff1a, Char.ofNat 0xff01, Char.ofNat 0xff1f,
         Char.ofNat 0x3001, Char.ofNat 0x2018, Char.ofNat 0x2019,
         Char.ofNat 0x201c, Char.ofNat 0x201d, Char.ofNat 0x2026] ||
    decide (0x1f000 ≤ c.toNat)
  ((l.dropWhile isPunctOrEmoji).reverse.dropWhile isPunctOrEmoji).reverse

/-- The normalization part of `filter_content_for_tts` (lines 36–50): strip
surrounding punctuation/emoji, remove bracketed emotion tags, drop the
unwanted-punctuation characters, collapse whitespace runs. -/
def normalizeForTTS (content : List Char) : List Char :=
  let f1 := get_string_no_punctuation_or_emoji (pyStrip content)
  let f2 := stripTags f1
  let f3 := f2.filter (fun c => !(c ∈ unwantedPunctuation : Bool))
  joinWords (splitWs f3)

/-- The set `meaningless_words` (line 75). -/
def meaninglessWords : List (List Char) :=
  ["呃".data, "额".data, "嗯".data, "啊".data, "哦".data, "诶".data,
   "哈".data, "嘿".data, "咦".data, "唉".data, "喔".data,
   "uh".data, "um".data, "eh".data, "ah".data, "oh".data]

/-- The list `farewell_words` (line 81). -/
def farewellWords : List (List Char) :=
  ["晚安".data, "再见".data, "拜拜".data, "88".data]

/-- The alternatives of the URL regex `(https?://|www\.|\.com|\.cn|\.net|\.org)`
(line 89); a search succeeds exactly when one of these substrings occurs. -/
def urlTokens : List (List Char) :=
  ["http://".data, "https://".data, "www.".data, ".com".data, ".cn".data,
   ".net".data, ".org".data]

/-- Repeated-pattern check (lines 100–108): length ≥ 6 and the string is an
exact concatenation of copies of its prefix of length 1, 2 or 3. -/
def hasRepeatPattern (f : List Char) : Bool :=
  decide (6 ≤ f.length) &&
    ([1, 2, 3].any fun patternLen =>
      f.length % patternLen == 0 &&
        decide ((List.replicate (f.length / patternLen) (f.take patternLen)).flatten = f))

/-- Embeds `filter_content_for_tts` (src/utils/common.py 23–116). Returns the
filtered content and an eligibility flag; every rejection returns
`([], false)`. The farewell check (lines 80–86) operates on the lower-cased
raw `content`, all other checks on the filtered content
`normalizeForTTS content` (the code's `filtered_content`). -/
def filter_content_for_tts (content : List Char) : List Char × Bool :=
  if content.isEmpty then ([], false)
  else if (normalizeForTTS content).isEmpty then ([], false)
  else if (normalizeForTTS content).all isPyDigit then ([], false)
  else if (normalizeForTTS content).length < 2 then ([], false)
  else if (distinctChars (normalizeForTTS content)).length = 1 ∧
      4 < (normalizeForTTS content).length then ([], false)
  else if pyLower (normalizeForTTS content) ∈ meaninglessWords then ([], false)
  else if farewellWords.any (fun w => containsSeq w (pyLower content)) then ([], false)
  else if urlTokens.any (fun u => containsSeq u (pyLower (normalizeForTTS content))) then
    ([], false)
  else if 3 ≤ (normalizeForTTS content).length ∧
      (normalizeForTTS content).all isPyAlpha ∧
      (distinctChars (pyLower (normalizeForTTS content))).length ≤ 2 then ([], false)
  else if hasRepeatPattern (normalizeForTTS content) then ([], false)
  else if 4 ≤ (normalizeForTTS content).length ∧
      (normalizeForTTS content).length <
        2 * ((normalizeForTTS content).filter isPyDigit).length then ([], false)
  else (normalizeForTTS content, true)

example : filter_content_for_tts "哈哈哈哈哈哈".data = ([], false) := by decide
example : filter_content_for_tts "好好".data = ("好好".data, true) := by decide
example : filter_content_for_tts "123".data = ([], false) := by decide
example : filter_content_for_tts "你好[拜拜]呀".data = ([], false) := by decide
example : filter_content_for_tts "你好呀".data = ("你好呀".data, true) := by decide

/-! ## Audio cache (`TTSCache`, src/utils/common.py 119–197) -/

/-- A cache entry (the dict stored on line 173). -/
structure CacheEntry where
  audio_datas : List Nat
  audio_duration : ℚ
  audio_size : Nat
  cached_time : ℚ
deriving DecidableEq, Repr

/-- State of `TTSCache`: `self.max_size` and the `OrderedDict` `self.cache`, whose
insertion order (oldest first, most-recently-used last) is the list order. -/
structure TTSCache where
  max_size : Nat
  entries : List (List Char × CacheEntry)
deriving DecidableEq, Repr

/-- Embeds `TTSCache._generate_key` (lines 132–137): the MD5 digest of
`content.strip().lower()`. The digest itself is stdlib, not repository code;
it is modelled by the normalized text, which like the digest is a
deterministic (and, per the spec, collision-free for the text domain)
function of the normalized content. -/
def generate_key (content : List Char) : List Char :=
  pyLower (pyStrip content)

/-- Association-list lookup on cache keys (`key in self.cache` plus the
indexing, keys being unique in every reachable `OrderedDict`). -/
def lookupEntry (k : List Char) : List (List Char × CacheEntry) → Option CacheEntry
  | [] => none
  | (k2, e) :: rest => if k2 = k then some e else lookupEntry k rest

/-- Embeds `TTSCache.get` (lines 139–155): on a hit, pop the binding and reinsert
it at the most-recently-used end, returning the audio triple; on a miss,
return `none` and leave the cache unchanged. -/
def tts_get (c : TTSCache) (content : List Char) :
    Option (List Nat × ℚ × Nat) × TTSCache :=
  match lookupEntry (generate_key content) c.entries with
  | some e =>
    (some (e.audio_datas, e.audio_duration, e.audio_size),
     ⟨c.max_size,
      c.entries.filter (fun p => decide (p.1 ≠ generate_key content))
        ++ [(generate_key content, e)]⟩)
  | none => (none, c)

/-- Embeds `TTSCache.put` (lines 157–183): delete any existing binding for the key,
append the new entry at the most-recently-used end, then pop from the
least-recently-used end while the size exceeds `max_size` (equivalently,
drop the first `length - max_size` entries). -/
def tts_put (c : TTSCache) (now : ℚ) (content : List Char)
    (audio : List Nat) (dur : ℚ) (size : Nat) : TTSCache :=
  ⟨c.max_size,
   (c.entries.filter (fun p => decide (p.1 ≠ generate_key content))
       ++ [(generate_key content, CacheEntry.mk audio dur size now)]).drop
     ((c.entries.filter (fun p => decide (p.1 ≠ generate_key content))
       ++ [(generate_key content, CacheEntry.mk audio dur size now)]).length
       - c.max_size)⟩

/-- Embeds `TTSCache.clear` (lines 185–188). -/
def tts_clear (c : TTSCache) : TTSCache := ⟨c.max_size, []⟩

/-- The statistics snapshot of `TTSCache.get_stats` (lines 190–197); the
`usage_rate` percentage `len(cache)/max_size*100` is kept as a rational. -/
structure CacheStats where
  size : Nat
  max_size : Nat
  usage_rate : ℚ
deriving DecidableEq, Repr

/-- Embeds `TTSCache.get_stats` (lines 190–197). The percentage divides by
`self.max_size`; with `max_size = 0` Python raises `ZeroDivisionError`,
modelled as `none`. The cache contents are untouched. -/
def get_stats (c : TTSCache) : Option CacheStats × TTSCache :=
  if c.max_size = 0 then (none, c)
  else
    (some ⟨c.entries.length, c.max_size,
      (c.entries.length : ℚ) / (c.max_size : ℚ) * 100⟩, c)

/-- One cache operation, for stating the size invariant over arbitrary
operation sequences. -/
inductive CacheOp where
  | get (content : List Char)
  | put (now : ℚ) (content : List Char) (audio : List Nat) (dur : ℚ) (size : Nat)
  | clear
deriving Repr

/-- Apply one cache operation, discarding the read result. -/
def applyCacheOp (c : TTSCache) : CacheOp → TTSCache
  | .get content => (tts_get c content).2
  | .put now content audio dur size => tts_put c now content audio dur size
  | .clear => tts_clear c

/-! ## Message records and stores (`GlobalVal`, src/utils/common.py 397–614) -/

/-- The opaque event payload (`message_data`); the pipeline reads only its
`content` field (`message_data.get('content', '')`). -/
structure MsgData where
  content : List Char
deriving DecidableEq, Repr

/-- A message-store record. Direct publishes (`_add_message_to_array`) carry
only `timestamp` and `data`; chat publishes add the audio fields and a
`tts_status` of `"cached"` or `"completed"` — absence of the status key is
`none`. -/
structure MessageRecord where
  timestamp : Int
  mdata : MsgData
  audio_datas : List Nat := []
  audio_duration : ℚ := 0
  audio_size : Nat := 0
  tts_status : Option String := none
deriving DecidableEq, Repr

/-- The insert-then-trim step shared verbatim by all three publish sites
(lines 437–441, 353–356, 494–497): insert at the front, pop the oldest when
the length exceeds `MAX_MESSAGE_COUNT`. -/
def insertTrimRec (r : MessageRecord) (arr : List MessageRecord) : List MessageRecord :=
  if MAX_MESSAGE_COUNT < (r :: arr).length then (r :: arr).dropLast else r :: arr

/-- Embeds `GlobalVal._add_message_to_array` (lines 430–441), the direct
gift/like/member publish path. -/
def add_message_to_array (now : ℚ) (arr : List MessageRecord) (mdata : MsgData) :
    List MessageRecord :=
  insertTrimRec { timestamp := (now * 1000).floor, mdata := mdata } arr

/-- Embeds `GlobalVal.get_latest_chat_message` (lines 543–547) on a store. -/
def get_latest (arr : List MessageRecord) : Option MessageRecord := arr.head?

/-! ## Task manager (`AsyncTTSManager`, src/utils/common.py 204–390) -/

/-- The per-task info stored in `pending_messages` (lines 235–240). The
`message_array` reference always designates the chat store and is passed
explicitly to the completion embedding. -/
structure TaskInfo where
  content : List Char
  mdata : MsgData
  submit_time : ℚ
deriving DecidableEq, Repr

/-- State of `AsyncTTSManager`: `active_tasks` holds the task ids with a live
future (dict keys; uuid4 values modelled as `Nat`), `pending_messages` the
per-task info, and `executor_jobs` records each call handed to
`executor.submit` (line 243). -/
structure AsyncTTSManager where
  max_concurrent : Nat
  active_tasks : List Nat
  pending_messages : List (Nat × TaskInfo)
  executor_jobs : List Nat
deriving DecidableEq, Repr

/-- Association-list lookup for `pending_messages.get(task_id)`. -/
def lookupTask (tid : Nat) : List (Nat × TaskInfo) → Option TaskInfo
  | [] => none
  | (t, i) :: rest => if t = tid then some i else lookupTask tid rest

/-- Embeds `AsyncTTSManager.submit_tts_task` (lines 214–250): reject with `None`
when `len(active_tasks) >= max_concurrent`; otherwise record the task info,
hand the job to the executor, register the future, and return the task id
(the fresh uuid4, supplied here as `tid`). Dict assignment is modelled as
replace-insert. -/
def submit_tts_task (mgr : AsyncTTSManager) (tid : Nat) (content : List Char)
    (mdata : MsgData) (now : ℚ) : Option Nat × AsyncTTSManager :=
  if mgr.max_concurrent ≤ mgr.active_tasks.length then (none, mgr)
  else
    (some tid,
     { mgr with
        pending_messages :=
          (tid, ⟨content, mdata, now⟩) ::
            mgr.pending_messages.filter (fun p => decide (p.1 ≠ tid)),
        executor_jobs := tid :: mgr.executor_jobs,
        active_tasks := tid :: mgr.active_tasks.filter (fun i => decide (i ≠ tid)) })

/-- Embeds `AsyncTTSManager._create_result` (lines 330–339). -/
def create_result (now : ℚ) (mdata : MsgData) (audio : List Nat) (dur : ℚ)
    (size : Nat) (status : String) : MessageRecord :=
  { timestamp := (now * 1000).floor, mdata := mdata, audio_datas := audio,
    audio_duration := dur, audio_size := size, tts_status := some status }

/-- The uncached path of `_process_tts_task` (lines 279–294):
`_generate_tts_with_timeout` is the opaque synthesis capability `synth`,
returning `([], 0, 0)` on failure/timeout/exception (Python
`(None, 0, 0)`); on non-empty audio the cache is populated (when enabled)
and a `'completed'` result is produced, otherwise `None`. -/
def runSynthPath (synth : List Char → List Nat × ℚ × Nat) (now : ℚ)
    (cache : TTSCache) (info : TaskInfo) : Option MessageRecord × TTSCache :=
  if (synth info.content).1 ≠ [] then
    (some (create_result now info.mdata (synth info.content).1
      (synth info.content).2.1 (synth info.content).2.2 "completed"),
     if 0 < cache.max_size then
       tts_put cache now info.content (synth info.content).1
         (synth info.content).2.1 (synth info.content).2.2
     else cache)
  else (none, cache)

/-- Embeds `AsyncTTSManager._process_tts_task` (lines 252–300): missing task info
returns `None`; with caching enabled a cache hit returns a `'cached'` result
(and bumps recency); otherwise the synthesis path runs. All exceptions are
caught and yield `None`. -/
def process_tts_task (synth : List Char → List Nat × ℚ × Nat) (now : ℚ)
    (cache : TTSCache) (mgr : AsyncTTSManager) (tid : Nat) :
    Option MessageRecord × TTSCache :=
  match lookupTask tid mgr.pending_messages with
  | none => (none, cache)
  | some info =>
    if 0 < cache.max_size then
      match (tts_get cache info.content).1 with
      | some (a, d, s) =>
        (some (create_result now info.mdata a d s "cached"),
         (tts_get cache info.content).2)
      | none =>
        -- on a miss `TTSCache.get` returns the cache unchanged
        runSynthPath synth now cache info
    else runSynthPath synth now cache info

/-- Embeds `AsyncTTSManager._task_completed` (lines 341–375): when
`future.result()` raises (`excRaised`), nothing is published; otherwise,
with the task info present and a result carrying non-empty audio, the
record is inserted at the front of the target store and the store is
trimmed; in every other case the store is untouched. The `finally` block
always removes the task from `active_tasks` and `pending_messages`. -/
def task_completed (mgr : AsyncTTSManager) (tid : Nat) (excRaised : Bool)
    (result : Option MessageRecord) (arr : List MessageRecord) :
    AsyncTTSManager × List MessageRecord :=
  ({ mgr with
      active_tasks := mgr.active_tasks.filter (fun i => decide (i ≠ tid)),
      pending_messages := mgr.pending_messages.filter (fun p => decide (p.1 ≠ tid)) },
   if excRaised then arr
   else
     match lookupTask tid mgr.pending_messages with
     | some _ =>
       match result with
       | some r => if r.audio_datas ≠ [] then insertTrimRec r arr else arr
       | none => arr
     | none => arr)

/-! ## The chat ingestion flow (`GlobalVal`, src/utils/common.py 430–523) -/

/-- The mutable `GlobalVal`/global state touched by chat ingestion:
`_last_tts_time`, `_tts_throttle_interval`, `chat_messages`, the global
`_tts_cache` and `_async_tts_manager`. -/
structure GlobalState where
  last_tts_time : ℚ
  tts_throttle_interval : ℚ
  chat_messages : List MessageRecord
  tts_cache : TTSCache
  mgr : AsyncTTSManager
deriving DecidableEq, Repr

/-- Embeds `GlobalVal._add_chat_message_with_tts_async` (lines 443–514), the body
of `update_chat_message`: throttle gate first (updating `_last_tts_time` as
soon as the gate opens), then the empty check and the content filter, then
the cache probe (a hit publishes immediately with status `'cached'`), and
finally the task submission (`tid` is the uuid4 the submission would draw).
The cache-enabled guard `TTS_CACHE_SIZE > 0` is the global `_tts_cache`'s
`max_size`. -/
def add_chat_message_with_tts_async (now : ℚ) (tid : Nat) (mdata : MsgData)
    (st : GlobalState) : GlobalState :=
  if now - st.last_tts_time < st.tts_throttle_interval then st
  else if mdata.content = [] ∨ pyStrip mdata.content = [] then
    { st with last_tts_time := now }
  else if (filter_content_for_tts mdata.content).2 then
    if 0 < st.tts_cache.max_size then
      match (tts_get st.tts_cache (filter_content_for_tts mdata.content).1).1 with
      | some (a, d, s) =>
        { st with last_tts_time := now,
                  tts_cache :=
                    (tts_get st.tts_cache (filter_content_for_tts mdata.content).1).2,
                  chat_messages :=
                    insertTrimRec
                      { timestamp := (now * 1000).floor, mdata := mdata,
                        audio_datas := a, audio_duration := d, audio_size := s,
                        tts_status := some "cached" }
                      st.chat_messages }
      | none =>
        -- on a miss `TTSCache.get` leaves the cache unchanged, so only the
        -- manager state changes on this path
        { st with last_tts_time := now,
                  mgr := (submit_tts_task st.mgr tid
                    (filter_content_for_tts mdata.content).1 mdata now).2 }
    else
      { st with last_tts_time := now,
                mgr := (submit_tts_task st.mgr tid
                  (filter_content_for_tts mdata.content).1 mdata now).2 }
  else { st with last_tts_time := now }

/-! ## Helper lemmas -/

/-- The repeated-pattern check holds whenever the string is an exact
concatenation of copies of a 1–3 character pattern and its length is ≥ 6. -/
lemma hasRepeatPattern_of_flatten_replicate (f p : List Char) (k : Nat)
    (hp : p.length ∈ ([1, 2, 3] : List Nat))
    (hf : (List.replicate k p).flatten = f)
    (hlen : 6 ≤ f.length) : hasRepeatPattern f = true := by
  have hp2 : p.length = 1 ∨ p.length = 2 ∨ p.length = 3 := by simpa using hp
  have hplen : 0 < p.length := by rcases hp2 with h | h | h <;> omega
  have hflen : f.length = k * p.length := by
    rw [← hf]
    simp [List.length_flatten, List.map_replicate, List.sum_replicate, smul_eq_mul]
  have hk : 0 < k := by
    rcases Nat.eq_zero_or_pos k with rfl | hk
    · omega
    · exact hk
  have htake : f.take p.length = p := by
    obtain ⟨k2, rfl⟩ : ∃ k2, k = k2 + 1 := ⟨k - 1, by omega⟩
    rw [← hf, List.replicate_succ, List.flatten_cons]
    exact List.take_left p _
  have hdiv : f.length / p.length = k := by
    rw [hflen, Nat.mul_div_cancel _ hplen]
  have hmod : f.length % p.length = 0 := by
    rw [hflen]
    exact Nat.mul_mod_left k p.length
  unfold hasRepeatPattern
  rw [Bool.and_eq_true]
  refine ⟨decide_eq_true hlen, ?_⟩
  rw [List.any_eq_true]
  refine ⟨p.length, hp, ?_⟩
  rw [Bool.and_eq_true]
  constructor
  · simpa using hmod
  · rw [hdiv, htake]
    exact decide_eq_true hf

/-- An eligible input is non-empty and does not strip to whitespace. -/
lemma filter_valid_content_nonempty (c : List Char)
    (h : (filter_content_for_tts c).2 = true) : ¬(c = [] ∨ pyStrip c = []) := by
  rintro (rfl | hstrip)
  · exact absurd h (by decide)
  · have hn : normalizeForTTS c = [] := by
      unfold normalizeForTTS
      rw [hstrip]
      rfl
    have hfc : filter_content_for_tts c = ([], false) := by
      unfold filter_content_for_tts
      rw [hn]
      by_cases hc : c.isEmpty = true
      · rw [if_pos hc]
      · rw [if_neg hc, if_pos (show ([] : List Char).isEmpty = true from rfl)]
    rw [hfc] at h
    exact absurd h (by decide)

/-! ## Claim C4 — repeated-pattern rejection -/

/-- C4, counterexample: the normalized result of `"好好"` is itself, an exact
repetition of two copies of the 1-character substring `"好"`, yet the filter
returns it as eligible (the code's repeated-pattern rule fires only for
normalized length ≥ 6, and no other rule catches this input) — so the claim
as stated is false. -/
theorem c4_counterexample_two_copies_accepted :
    (List.replicate 2 "好".data).flatten = "好好".data ∧
    normalizeForTTS "好好".data = "好好".data ∧
    filter_content_for_tts "好好".data = ("好好".data, true) := by
  refine ⟨by decide, by decide, by decide⟩

/-- C4 (amended): for every input whose normalized result has length at
least 6 and is an exact repetition of concatenated copies of a substring of
length 1 to 3, the filter returns eligible = false with an empty normalized
string; in particular `filter("哈哈哈哈哈哈")` is ineligible. -/
theorem c4_repeat_pattern_of_length_ge_six_rejected
    (content p : List Char) (k : Nat)
    (hp : p.length ∈ ([1, 2, 3] : List Nat))
    (hf : (List.replicate k p).flatten = normalizeForTTS content)
    (hlen : 6 ≤ (normalizeForTTS content).length) :
    filter_content_for_tts content = ([], false) := by
  have hrep := hasRepeatPattern_of_flatten_replicate _ p k hp hf hlen
  unfold filter_content_for_tts
  repeat' split
  all_goals rfl

/-- C4 witness: the amended theorem applied to the spec's own scenario
`"哈哈哈哈哈哈"` (three copies of the 2-character pattern `"哈哈"`). -/
theorem c4_repeat_pattern_witness :
    filter_content_for_tts "哈哈哈哈哈哈".data = ([], false) :=
  c4_repeat_pattern_of_length_ge_six_rejected "哈哈哈哈哈哈".data "哈哈".data 3
    (by decide) (by decide) (by decide)

/-! ## Claim C5 — farewell check operates on the raw input -/

/-- C5, counterexample: the raw input `"你好[拜拜]呀"` normalizes to
`"你好呀"` (the bracketed emotion tag containing the farewell `"拜拜"` is
stripped), and that normalized result passes every filter rule — yet the
filter rejects the raw input, because the farewell check runs on the raw
lower-cased content. The claim as stated predicts eligibility here. -/
theorem c5_counterexample_farewell_inside_tag_rejected :
    normalizeForTTS "你好[拜拜]呀".data = "你好呀".data ∧
    filter_content_for_tts "你好呀".data = ("你好呀".data, true) ∧
    filter_content_for_tts "你好[拜拜]呀".data = ([], false) := by
  refine ⟨by decide, by decide, by decide⟩

/-- C5 (amended): the farewell-phrase rejection is evaluated on the
lower-cased raw input, not on the normalized result: every input whose raw
lower-cased form contains one of the farewell phrases is rejected with an
empty normalized string, even when the phrase appears only in material the
normalization strips. -/
theorem c5_farewell_on_raw_input_rejected (content : List Char)
    (h : farewellWords.any (fun w => containsSeq w (pyLower content)) = true) :
    filter_content_for_tts content = ([], false) := by
  unfold filter_content_for_tts
  repeat' split
  all_goals rfl

/-- C5 witness: the amended theorem applied to `"今天晚安哦"`, whose raw form
contains the farewell `"晚安"`. -/
theorem c5_farewell_witness :
    filter_content_for_tts "今天晚安哦".data = ([], false) :=
  c5_farewell_on_raw_input_rejected "今天晚安哦".data (by decide)

/-! ## Claim C6 — stats at capacity zero -/

/-- C6, counterexample: with capacity `C = 0` (the caching-disabled
configuration) the stats operation does not return a snapshot — the
usage-rate percentage `len(cache)/max_size*100` divides by zero and raises
`ZeroDivisionError`, modelled as `none`. The claim as stated requires a
snapshot for every `C ≥ 0`. -/
theorem c6_counterexample_stats_capacity_zero :
    get_stats ⟨0, []⟩ = (none, (⟨0, []⟩ : TTSCache)) := rfl

/-- C6 (amended): for every cache capacity `C ≥ 1` the stats operation
returns the `{size, capacity, usageRate}` snapshot without error and without
modifying the cache contents or their recency order. -/
theorem c6_stats_readonly_snapshot (c : TTSCache) (h : 1 ≤ c.max_size) :
    get_stats c =
      (some ⟨c.entries.length, c.max_size,
        (c.entries.length : ℚ) / (c.max_size : ℚ) * 100⟩, c) := by
  unfold get_stats
  rw [if_neg (by omega)]

/-- C6 witness: the amended theorem applied to an empty cache of capacity 5. -/
theorem c6_stats_witness :
    (get_stats ⟨5, []⟩).1.isSome = true ∧ (get_stats ⟨5, []⟩).2 = ⟨5, []⟩ := by
  rw [c6_stats_readonly_snapshot ⟨5, []⟩ (by decide)]
  exact ⟨rfl, rfl⟩

/-! ## Claim C3 — throttle is consulted before the filter -/

/-- C3, counterexample: a chat event whose content `"123"` the filter
rejects (purely numeric) is processed in a state whose last-admission
timestamp is 0 with the gate open at time 5 — afterwards the throttle's
last-admission timestamp has changed to 5, because the code updates the
timestamp before running the filter. The claim says the timestamp is left
unchanged for every filter-rejected event. -/
theorem c3_counterexample_rejected_event_consumes_gate :
    (filter_content_for_tts "123".data).2 = false ∧
    (add_chat_message_with_tts_async 5 0 ⟨"123".data⟩
      ⟨0, 1, [], ⟨200, []⟩, ⟨3, [], [], []⟩⟩).last_tts_time = 5 ∧
    (⟨0, 1, [], ⟨200, []⟩, ⟨3, [], [], []⟩⟩ : GlobalState).last_tts_time = 0 := by
  refine ⟨by decide, ?_, rfl⟩
  unfold add_chat_message_with_tts_async
  rw [if_neg (show ¬((5 : ℚ) - 0 < 1) by norm_num), if_neg (by decide),
    if_neg (by decide)]

/-- C3 (amended): the Submission Throttle is checked before the Content
Filter: an event arriving while the gate is closed leaves all state
unchanged, and a filter-ineligible event that passes the gate still consumes
it — its only effect is updating the last-admission timestamp. -/
theorem c3_throttle_checked_before_filter (st : GlobalState) (now : ℚ)
    (tid : Nat) (mdata : MsgData)
    (hrej : (filter_content_for_tts mdata.content).2 = false) :
    (now - st.last_tts_time < st.tts_throttle_interval →
      add_chat_message_with_tts_async now tid mdata st = st) ∧
    (st.tts_throttle_interval ≤ now - st.last_tts_time →
      add_chat_message_with_tts_async now tid mdata st
        = { st with last_tts_time := now }) := by
  constructor
  · intro h
    unfold add_chat_message_with_tts_async
    rw [if_pos h]
  · intro h
    unfold add_chat_message_with_tts_async
    rw [if_neg (not_lt.mpr h)]
    split
    · rfl
    · rw [if_neg (by simp [hrej])]

/-- C3 witness: the amended theorem applied at the counterexample state. -/
theorem c3_throttle_witness :
    add_chat_message_with_tts_async 5 0 ⟨"123".data⟩
        ⟨0, 1, [], ⟨200, []⟩, ⟨3, [], [], []⟩⟩
      = { (⟨0, 1, [], ⟨200, []⟩, ⟨3, [], [], []⟩⟩ : GlobalState) with
          last_tts_time := 5 } :=
  (c3_throttle_checked_before_filter _ 5 0 ⟨"123".data⟩ (by decide)).2
    (show (1 : ℚ) ≤ 5 - 0 by norm_num)

/-! ## Claim C2 — concurrency cap -/

/-- C2: the number of in-flight tasks never exceeds `max_concurrent`: a
submit while `max_concurrent` tasks are active returns `None` and changes
nothing; a submit below the cap registers exactly one new task and returns
its id; the in-flight count stays within the cap; and completion removes
exactly the completed task from the in-flight set. -/
theorem c2_concurrency_cap (mgr : AsyncTTSManager) (tid : Nat)
    (content : List Char) (mdata : MsgData) (now : ℚ)
    (arr : List MessageRecord) (excRaised : Bool) (result : Option MessageRecord) :
    (mgr.max_concurrent ≤ mgr.active_tasks.length →
      submit_tts_task mgr tid content mdata now = (none, mgr)) ∧
    (mgr.active_tasks.length < mgr.max_concurrent →
      (submit_tts_task mgr tid content mdata now).1 = some tid ∧
      (submit_tts_task mgr tid content mdata now).2.active_tasks
        = tid :: mgr.active_tasks.filter (fun i => decide (i ≠ tid)) ∧
      (tid ∉ mgr.active_tasks →
        (submit_tts_task mgr tid content mdata now).2.active_tasks.length
          = mgr.active_tasks.length + 1)) ∧
    (mgr.active_tasks.length ≤ mgr.max_concurrent →
      (submit_tts_task mgr tid content mdata now).2.active_tasks.length
        ≤ mgr.max_concurrent) ∧
    ((task_completed mgr tid excRaised result arr).1.active_tasks.length
      ≤ mgr.active_tasks.length) ∧
    (∀ i, i ∈ (task_completed mgr tid excRaised result arr).1.active_tasks ↔
      (i ∈ mgr.active_tasks ∧ i ≠ tid)) := by
  refine ⟨?_, ?_, ?_, ?_, ?_⟩
  · intro h
    unfold submit_tts_task
    rw [if_pos h]
  · intro h
    unfold submit_tts_task
    rw [if_neg (by omega)]
    refine ⟨rfl, rfl, ?_⟩
    intro hni
    have hflt : mgr.active_tasks.filter (fun i => decide (i ≠ tid))
        = mgr.active_tasks := by
      refine List.filter_eq_self.mpr fun a ha => ?_
      simp only [decide_eq_true_eq]
      rintro rfl
      exact hni ha
    show (tid :: mgr.active_tasks.filter (fun i => decide (i ≠ tid))).length
      = mgr.active_tasks.length + 1
    rw [hflt, List.length_cons]
  · intro h
    rcases le_or_lt mgr.max_concurrent mgr.active_tasks.length with hc | hc
    · unfold submit_tts_task
      rw [if_pos hc]
      exact h
    · unfold submit_tts_task
      rw [if_neg (by omega)]
      show (tid :: mgr.active_tasks.filter (fun i => decide (i ≠ tid))).length
        ≤ mgr.max_concurrent
      have := List.length_filter_le (fun i => decide (i ≠ tid)) mgr.active_tasks
      rw [List.length_cons]
      omega
  · exact List.length_filter_le _ _
  · intro i
    show i ∈ mgr.active_tasks.filter (fun i => decide (i ≠ tid)) ↔ _
    rw [List.mem_filter]
    simp [decide_eq_true_eq]

/-- C2 witness: the theorem applied at a manager with cap 1 — a submit while
one task is active is rejected without state change, a submit on an idle
manager registers exactly one task, and completing task 7 removes it. -/
theorem c2_concurrency_cap_witness :
    submit_tts_task ⟨1, [7], [], []⟩ 9 "hi".data ⟨"hi".data⟩ 0
      = (none, ⟨1, [7], [], []⟩) ∧
    (submit_tts_task ⟨1, [], [], []⟩ 9 "hi".data ⟨"hi".data⟩ 0).1 = some 9 ∧
    (submit_tts_task ⟨1, [], [], []⟩ 9 "hi".data ⟨"hi".data⟩ 0).2.active_tasks.length
      = 1 ∧
    (7 ∈ (task_completed ⟨1, [7], [], []⟩ 7 false none []).1.active_tasks ↔
      (7 ∈ [7] ∧ 7 ≠ 7)) := by
  have h1 := c2_concurrency_cap ⟨1, [7], [], []⟩ 9 "hi".data ⟨"hi".data⟩ 0 [] false none
  have h2 := c2_concurrency_cap ⟨1, [], [], []⟩ 9 "hi".data ⟨"hi".data⟩ 0 [] false none
  have h3 := c2_concurrency_cap ⟨1, [7], [], []⟩ 7 "hi".data ⟨"hi".data⟩ 0 [] false none
  refine ⟨h1.1 (by decide), (h2.2.1 (by decide)).1, ?_, h3.2.2.2.2 7⟩
  have h4 := (h2.2.1 (by decide)).2.2 (by decide)
  simpa using h4

/-! ## Claim C10 — capacity rejection is atomic -/

/-- C10: a capacity rejection is atomic: when the number of active tasks is
at (or above) `max_concurrent`, `submit_tts_task` returns `None` and leaves
the manager state — `active_tasks`, `pending_messages`, and the jobs handed
to the executor — unchanged, and the whole chat-ingestion step leaves
everything except the throttle timestamp unchanged, in particular the target
message array. -/
theorem c10_capacity_rejection_is_atomic (st : GlobalState) (now : ℚ)
    (tid : Nat) (mdata : MsgData)
    (hcap : st.mgr.max_concurrent ≤ st.mgr.active_tasks.length)
    (hgate : st.tts_throttle_interval ≤ now - st.last_tts_time)
    (hvalid : (filter_content_for_tts mdata.content).2 = true)
    (hmiss : 0 < st.tts_cache.max_size →
      (tts_get st.tts_cache (filter_content_for_tts mdata.content).1).1 = none) :
    submit_tts_task st.mgr tid (filter_content_for_tts mdata.content).1 mdata now
      = (none, st.mgr) ∧
    add_chat_message_with_tts_async now tid mdata st
      = { st with last_tts_time := now } := by
  have hsub : submit_tts_task st.mgr tid (filter_content_for_tts mdata.content).1
      mdata now = (none, st.mgr) := by
    unfold submit_tts_task
    rw [if_pos hcap]
  refine ⟨hsub, ?_⟩
  unfold add_chat_message_with_tts_async
  rw [if_neg (not_lt.mpr hgate), if_neg (filter_valid_content_nonempty _ hvalid),
    if_pos hvalid]
  by_cases hc : 0 < st.tts_cache.max_size
  · rw [if_pos hc, hmiss hc, hsub]
  · rw [if_neg hc, hsub]

/-- C10 witness: the theorem applied at a state whose manager (cap 1) is
saturated by one active task, with caching disabled and the gate open. -/
theorem c10_capacity_rejection_witness :
    add_chat_message_with_tts_async 5 0 ⟨"你好呀".data⟩
        ⟨0, 1, [], ⟨0, []⟩, ⟨1, [4], [], []⟩⟩
      = { (⟨0, 1, [], ⟨0, []⟩, ⟨1, [4], [], []⟩⟩ : GlobalState) with
          last_tts_time := 5 } :=
  (c10_capacity_rejection_is_atomic _ 5 0 ⟨"你好呀".data⟩ (by decide)
    (show (1 : ℚ) ≤ 5 - 0 by norm_num) (by decide)
    (fun h => absurd h (by decide))).2

/-! ## Claim C7 — cache key determinism and round trip -/

/-- Looking up the key just appended at the most-recently-used end succeeds
when no earlier binding carries that key. -/
lemma lookupEntry_append_key (l : List (List Char × CacheEntry)) (k : List Char)
    (e : CacheEntry) (h : ∀ p ∈ l, p.1 ≠ k) :
    lookupEntry k (l ++ [(k, e)]) = some e := by
  induction l with
  | nil => simp [lookupEntry]
  | cons p rest ih =>
    obtain ⟨k2, e2⟩ := p
    have hk2 : k2 ≠ k := h (k2, e2) (List.mem_cons_self _ _)
    rw [List.cons_append,
      show lookupEntry k ((k2, e2) :: (rest ++ [(k, e)]))
        = if k2 = k then some e2 else lookupEntry k (rest ++ [(k, e)]) from rfl,
      if_neg hk2]
    exact ih fun q hq => h q (List.mem_cons_of_mem _ hq)

/-- C7: the cache key is a deterministic function of the text modulo
surrounding whitespace and case — two texts equal after trimming and
lower-casing share a key — and for a cache of capacity ≥ 1 a `put`
immediately followed by a `get` of the same text returns exactly the stored
audio triple. -/
theorem c7_cache_key_deterministic_roundtrip (x y : List Char) (c : TTSCache)
    (now : ℚ) (a : List Nat) (d : ℚ) (s : Nat)
    (hxy : pyLower (pyStrip x) = pyLower (pyStrip y))
    (hcap : 1 ≤ c.max_size) :
    generate_key x = generate_key y ∧
    (tts_get (tts_put c now x a d s) x).1 = some (a, d, s) := by
  constructor
  · exact hxy
  · have hn : (c.entries.filter (fun p => decide (p.1 ≠ generate_key x))
          ++ [(generate_key x, CacheEntry.mk a d s now)]).length - c.max_size
        ≤ (c.entries.filter (fun p => decide (p.1 ≠ generate_key x))).length := by
      rw [List.length_append]
      simp only [List.length_cons, List.length_nil]
      omega
    have hkeys : ∀ p ∈ (c.entries.filter
          (fun p => decide (p.1 ≠ generate_key x))).drop
            ((c.entries.filter (fun p => decide (p.1 ≠ generate_key x))
              ++ [(generate_key x, CacheEntry.mk a d s now)]).length - c.max_size),
        p.1 ≠ generate_key x := by
      intro p hp
      have hmem := List.mem_of_mem_drop hp
      have := List.of_mem_filter hmem
      simpa using this
    unfold tts_put tts_get
    rw [List.drop_append_of_le_length hn, lookupEntry_append_key _ _ _ hkeys]

/-- C7 witness: the theorem applied to `" Hi"` and `"hi"` (equal after
trimming and lower-casing) on an empty cache of capacity 1. -/
theorem c7_cache_key_witness :
    generate_key " Hi".data = generate_key "hi".data ∧
    (tts_get (tts_put ⟨1, []⟩ 0 " Hi".data [1, 2] 1 2) " Hi".data).1
      = some ([1, 2], 1, 2) :=
  c7_cache_key_deterministic_roundtrip " Hi".data "hi".data ⟨1, []⟩ 0 [1, 2] 1 2
    (by decide) (by decide)

/-! ## Claim C8 — LRU bound, eviction and recency -/

/-- A successful lookup puts the looked-up binding in the list. -/
lemma lookupEntry_mem (k : List Char) (l : List (List Char × CacheEntry))
    (e : CacheEntry) (h : lookupEntry k l = some e) : (k, e) ∈ l := by
  induction l with
  | nil => exact absurd h (by simp [lookupEntry])
  | cons p rest ih =>
    obtain ⟨k2, e2⟩ := p
    rw [show lookupEntry k ((k2, e2) :: rest)
      = if k2 = k then some e2 else lookupEntry k rest from rfl] at h
    by_cases hk : k2 = k
    · rw [if_pos hk] at h
      obtain rfl := Option.some.injEq _ _ ▸ h
      subst hk
      exact List.mem_cons_self _ _
    · rw [if_neg hk] at h
      exact List.mem_cons_of_mem _ (ih h)

/-- Every cache operation preserves the capacity field. -/
lemma applyCacheOp_max (c : TTSCache) (op : CacheOp) :
    (applyCacheOp c op).max_size = c.max_size := by
  cases op with
  | get content =>
    simp only [applyCacheOp]
    unfold tts_get
    cases lookupEntry (generate_key content) c.entries <;> rfl
  | put now content audio dur size => rfl
  | clear => rfl

/-- Every cache operation preserves the size bound. -/
lemma applyCacheOp_size (c : TTSCache) (op : CacheOp)
    (h : c.entries.length ≤ c.max_size) :
    (applyCacheOp c op).entries.length ≤ c.max_size := by
  cases op with
  | get content =>
    simp only [applyCacheOp]
    unfold tts_get
    cases hl : lookupEntry (generate_key content) c.entries with
    | none => exact h
    | some e =>
      show (c.entries.filter (fun p => decide (p.1 ≠ generate_key content))
        ++ [(generate_key content, e)]).length ≤ c.max_size
      have hlt : (c.entries.filter
          (fun p => decide (p.1 ≠ generate_key content))).length
          < c.entries.length := by
        refine List.length_filter_lt_length_iff_exists.mpr ?_
        exact ⟨(generate_key content, e), lookupEntry_mem _ _ _ hl, by simp⟩
      rw [List.length_append]
      simp only [List.length_singleton]
      omega
  | put now content audio dur size =>
    simp only [applyCacheOp]
    unfold tts_put
    show ((c.entries.filter _ ++ _).drop _).length ≤ c.max_size
    rw [List.length_drop]
    omega
  | clear => simp [applyCacheOp, tts_clear]

/-- The size bound is preserved by arbitrary operation sequences. -/
lemma cacheFold_size (ops : List CacheOp) (c : TTSCache)
    (h : c.entries.length ≤ c.max_size) :
    (ops.foldl applyCacheOp c).entries.length
      ≤ (ops.foldl applyCacheOp c).max_size := by
  induction ops generalizing c with
  | nil => exact h
  | cons op rest ih =>
    rw [List.foldl_cons]
    refine ih (applyCacheOp c op) ?_
    rw [applyCacheOp_max]
    exact applyCacheOp_size c op h

/-- The capacity is preserved by arbitrary operation sequences. -/
lemma cacheFold_max (ops : List CacheOp) (c : TTSCache) :
    (ops.foldl applyCacheOp c).max_size = c.max_size := by
  induction ops generalizing c with
  | nil => rfl
  | cons op rest ih =>
    rw [List.foldl_cons, ih (applyCacheOp c op), applyCacheOp_max]

/-- C8: after any sequence of get/put/clear operations from an empty cache
of capacity `C` the cache holds at most `C` entries; inserting a fresh key
into a full cache (capacity ≥ 1) evicts exactly the least-recently-used
entry — the head of the recency order, i.e. the oldest by insertion when
never touched — keeping all others in order and placing the new entry at the
most-recently-used end; and a get hit moves the hit entry to the
most-recently-used end, leaving the relative order of the others unchanged. -/
theorem c8_lru_bound_eviction_recency (ops : List CacheOp) (C : Nat)
    (c c2 : TTSCache) (now : ℚ) (x y : List Char) (a : List Nat) (d : ℚ)
    (s : Nat) (e : CacheEntry) :
    ((ops.foldl applyCacheOp ⟨C, []⟩).entries.length ≤ C) ∧
    (c.entries.length = c.max_size → 1 ≤ c.max_size →
      (∀ p ∈ c.entries, p.1 ≠ generate_key x) →
      (tts_put c now x a d s).entries
        = c.entries.drop 1 ++ [(generate_key x, CacheEntry.mk a d s now)]) ∧
    (lookupEntry (generate_key y) c2.entries = some e →
      (tts_get c2 y).2.entries
        = c2.entries.filter (fun p => decide (p.1 ≠ generate_key y))
            ++ [(generate_key y, e)]) := by
  refine ⟨?_, ?_, ?_⟩
  · have h1 := cacheFold_size ops ⟨C, []⟩ (by simp)
    rw [cacheFold_max ops ⟨C, []⟩] at h1
    exact h1
  · intro hfull hpos hfresh
    have hflt : c.entries.filter (fun p => decide (p.1 ≠ generate_key x))
        = c.entries :=
      List.filter_eq_self.mpr fun p hp => by simpa using hfresh p hp
    show ((c.entries.filter _ ++ _).drop _) = _
    rw [hflt, List.length_append, hfull]
    simp only [List.length_cons, List.length_nil]
    rw [show c.max_size + (0 + 1) - c.max_size = 1 from by omega]
    rw [List.drop_append_of_le_length (by omega)]
  · intro hl
    unfold tts_get
    rw [hl]

/-- C8 witness: the theorem applied to a concrete operation sequence on a
capacity-1 cache, a full capacity-1 cache receiving a fresh key, and a
capacity-2 cache with a hit on its least-recently-used entry. -/
theorem c8_lru_witness :
    (([CacheOp.put 0 "a".data [1] 1 1, CacheOp.get "a".data,
        CacheOp.put 0 "b".data [2] 2 2].foldl applyCacheOp
        ⟨1, []⟩).entries.length ≤ 1) ∧
    ((tts_put ⟨1, [("a".data, CacheEntry.mk [1] 1 1 0)]⟩ 0 "b".data [2] 2 2).entries
      = [("a".data, CacheEntry.mk [1] 1 1 0)].drop 1
          ++ [(generate_key "b".data, CacheEntry.mk [2] 2 2 0)]) ∧
    ((tts_get ⟨2, [("y".data, CacheEntry.mk [3] 3 3 0),
        ("z".data, CacheEntry.mk [4] 4 4 0)]⟩ "y".data).2.entries
      = [("y".data, CacheEntry.mk [3] 3 3 0),
          ("z".data, CacheEntry.mk [4] 4 4 0)].filter
            (fun p => decide (p.1 ≠ generate_key "y".data))
          ++ [(generate_key "y".data, CacheEntry.mk [3] 3 3 0)]) := by
  have h := c8_lru_bound_eviction_recency
    [CacheOp.put 0 "a".data [1] 1 1, CacheOp.get "a".data,
      CacheOp.put 0 "b".data [2] 2 2] 1
    ⟨1, [("a".data, CacheEntry.mk [1] 1 1 0)]⟩
    ⟨2, [("y".data, CacheEntry.mk [3] 3 3 0),
      ("z".data, CacheEntry.mk [4] 4 4 0)]⟩
    0 "b".data "y".data [2] 2 2 (CacheEntry.mk [3] 3 3 0)
  exact ⟨h.1, h.2.1 rfl (by decide) (by decide), h.2.2 rfl⟩

/-! ## Claim C9 — message-store capacity and order -/

/-- The shared insert-then-trim step keeps every store within
`MAX_MESSAGE_COUNT`. -/
lemma insertTrimRec_length_le (r : MessageRecord) (arr : List MessageRecord)
    (h : arr.length ≤ MAX_MESSAGE_COUNT) :
    (insertTrimRec r arr).length ≤ MAX_MESSAGE_COUNT := by
  unfold insertTrimRec MAX_MESSAGE_COUNT at *
  split
  · rw [List.length_dropLast, List.length_cons]
    omega
  · rename_i h2
    rw [List.length_cons]
    rw [List.length_cons] at h2
    omega

/-- The published-store component of `_task_completed`, by definition. -/
lemma task_completed_snd (mgr : AsyncTTSManager) (tid : Nat) (excRaised : Bool)
    (result : Option MessageRecord) (arr : List MessageRecord) :
    (task_completed mgr tid excRaised result arr).2
      = if excRaised then arr
        else
          match lookupTask tid mgr.pending_messages with
          | some _ =>
            match result with
            | some r => if r.audio_datas ≠ [] then insertTrimRec r arr else arr
            | none => arr
          | none => arr := rfl

/-- C9: every publish path — the direct gift/like/member publish, the
task-completion chat publish and the cache-hit chat publish — inserts at the
front and trims to capacity `N = 5`, so a store within capacity stays within
capacity; and after six publishes to one store the latest record is the most
recently published one while the first-published record is absent (for
pairwise distinct payloads). -/
theorem c9_store_capacity_and_order (now : ℚ) (arr : List MessageRecord)
    (mdata : MsgData) (mgr : AsyncTTSManager) (tid : Nat) (excRaised : Bool)
    (result : Option MessageRecord) (st : GlobalState)
    (t0 t1 t2 t3 t4 t5 : ℚ) (d0 d1 d2 d3 d4 d5 : MsgData) :
    (arr.length ≤ MAX_MESSAGE_COUNT →
      (add_message_to_array now arr mdata).length ≤ MAX_MESSAGE_COUNT) ∧
    (arr.length ≤ MAX_MESSAGE_COUNT →
      (task_completed mgr tid excRaised result arr).2.length
        ≤ MAX_MESSAGE_COUNT) ∧
    (st.chat_messages.length ≤ MAX_MESSAGE_COUNT →
      (add_chat_message_with_tts_async now tid mdata st).chat_messages.length
        ≤ MAX_MESSAGE_COUNT) ∧
    (get_latest (add_message_to_array t5 (add_message_to_array t4
        (add_message_to_array t3 (add_message_to_array t2 (add_message_to_array t1
          (add_message_to_array t0 [] d0) d1) d2) d3) d4) d5)
      = some { timestamp := (t5 * 1000).floor, mdata := d5 }) ∧
    (d0 ≠ d1 → d0 ≠ d2 → d0 ≠ d3 → d0 ≠ d4 → d0 ≠ d5 →
      ({ timestamp := (t0 * 1000).floor, mdata := d0 } : MessageRecord)
        ∉ add_message_to_array t5 (add_message_to_array t4
            (add_message_to_array t3 (add_message_to_array t2
              (add_message_to_array t1 (add_message_to_array t0 [] d0) d1) d2)
              d3) d4) d5) := by
  refine ⟨?_, ?_, ?_, rfl, ?_⟩
  · intro h
    exact insertTrimRec_length_le _ _ h
  · intro h
    rw [task_completed_snd]
    repeat' split
    all_goals first
      | exact h
      | exact insertTrimRec_length_le _ _ h
  · intro h
    unfold add_chat_message_with_tts_async
    repeat' split
    all_goals first
      | exact h
      | exact insertTrimRec_length_le _ _ h
  · intro h1 h2 h3 h4 h5
    have hl : add_message_to_array t5 (add_message_to_array t4
        (add_message_to_array t3 (add_message_to_array t2 (add_message_to_array t1
          (add_message_to_array t0 [] d0) d1) d2) d3) d4) d5
      = [{ timestamp := (t5 * 1000).floor, mdata := d5 },
         { timestamp := (t4 * 1000).floor, mdata := d4 },
         { timestamp := (t3 * 1000).floor, mdata := d3 },
         { timestamp := (t2 * 1000).floor, mdata := d2 },
         { timestamp := (t1 * 1000).floor, mdata := d1 }] := rfl
    rw [hl]
    simp [List.mem_cons, MessageRecord.mk.injEq, h1, h2, h3, h4, h5]

/-- C9 witness: one publish to an empty store stays within capacity, and the
six-publish scenario with distinct payloads drops the first record. -/
theorem c9_store_capacity_witness :
    (add_message_to_array 0 [] ⟨"a".data⟩).length ≤ MAX_MESSAGE_COUNT ∧
    ({ timestamp := ((0 : ℚ) * 1000).floor, mdata := ⟨"a".data⟩ } : MessageRecord)
      ∉ add_message_to_array 5 (add_message_to_array 4 (add_message_to_array 3
          (add_message_to_array 2 (add_message_to_array 1
            (add_message_to_array 0 [] ⟨"a".data⟩) ⟨"b".data⟩) ⟨"c".data⟩)
          ⟨"d".data⟩) ⟨"e".data⟩) ⟨"f".data⟩ := by
  have h := c9_store_capacity_and_order 0 [] ⟨"a".data⟩ ⟨3, [], [], []⟩ 0 false
    none ⟨0, 1, [], ⟨0, []⟩, ⟨3, [], [], []⟩⟩ 0 1 2 3 4 5
    ⟨"a".data⟩ ⟨"b".data⟩ ⟨"c".data⟩ ⟨"d".data⟩ ⟨"e".data⟩ ⟨"f".data⟩
  exact ⟨h.1 (by decide),
    h.2.2.2.2 (by decide) (by decide) (by decide) (by decide) (by decide)⟩

/-! ## Claim C1 — completion publishes one validated record or nothing -/

/-- C1: per task completion, exactly one of two outcomes occurs: either
nothing is published (the store is unchanged), or exactly one record is
published, and any published record carries non-empty audio and status
`'cached'` or `'completed'`; every result the job can produce has one of
those two statuses (no failed-status record exists); and on synthesis
failure or timeout (the synthesis capability returns no audio) with a cache
miss, nothing is published. Exceptions in the job yield a `None` result and
an exception in the completion callback (`excRaised`) publishes nothing. -/
theorem c1_completion_publishes_one_validated_record_or_nothing
    (synth : List Char → List Nat × ℚ × Nat) (now : ℚ) (cache : TTSCache)
    (mgr : AsyncTTSManager) (tid : Nat) (arr : List MessageRecord)
    (excRaised : Bool) :
    ((task_completed mgr tid excRaised
        (process_tts_task synth now cache mgr tid).1 arr).2 = arr ∨
      ∃ r, (process_tts_task synth now cache mgr tid).1 = some r ∧
        r.audio_datas ≠ [] ∧
        (r.tts_status = some "cached" ∨ r.tts_status = some "completed") ∧
        (task_completed mgr tid excRaised
          (process_tts_task synth now cache mgr tid).1 arr).2
          = insertTrimRec r arr) ∧
    (∀ r, (process_tts_task synth now cache mgr tid).1 = some r →
      r.tts_status = some "cached" ∨ r.tts_status = some "completed") ∧
    (∀ info, lookupTask tid mgr.pending_messages = some info →
      (0 < cache.max_size → (tts_get cache info.content).1 = none) →
      (synth info.content).1 = [] →
      (task_completed mgr tid excRaised
        (process_tts_task synth now cache mgr tid).1 arr).2 = arr) := by
  have hchar : (process_tts_task synth now cache mgr tid).1 = none ∨
      (∃ info a d s, lookupTask tid mgr.pending_messages = some info ∧
        (tts_get cache info.content).1 = some (a, d, s) ∧ 0 < cache.max_size ∧
        (process_tts_task synth now cache mgr tid).1
          = some (create_result now info.mdata a d s "cached")) ∨
      (∃ info, lookupTask tid mgr.pending_messages = some info ∧
        (synth info.content).1 ≠ [] ∧
        (process_tts_task synth now cache mgr tid).1
          = some (create_result now info.mdata (synth info.content).1
              (synth info.content).2.1 (synth info.content).2.2 "completed")) := by
    unfold process_tts_task runSynthPath
    split
    next heq => exact Or.inl rfl
    next info heq =>
      split
      next hc =>
        split
        next a2 d2 s2 hg =>
          exact Or.inr (Or.inl ⟨info, a2, d2, s2, heq, hg, hc, rfl⟩)
        next hg =>
          split
          next ha => exact Or.inr (Or.inr ⟨info, heq, ha, rfl⟩)
          next ha => exact Or.inl rfl
      next hc =>
        split
        next ha => exact Or.inr (Or.inr ⟨info, heq, ha, rfl⟩)
        next ha => exact Or.inl rfl
  have hstatus : ∀ r, (process_tts_task synth now cache mgr tid).1 = some r →
      r.tts_status = some "cached" ∨ r.tts_status = some "completed" := by
    intro r hr
    rcases hchar with hnone | ⟨i2, a2, d2, s2, _, _, _, hres⟩ | ⟨i2, _, _, hres⟩
    · rw [hnone] at hr
      cases hr
    · rw [hres] at hr
      obtain rfl := Option.some.inj hr
      exact Or.inl rfl
    · rw [hres] at hr
      obtain rfl := Option.some.inj hr
      exact Or.inr rfl
  refine ⟨?_, hstatus, ?_⟩
  · rw [task_completed_snd]
    split
    · exact Or.inl rfl
    · split
      next _i2 heq2 =>
        split
        next r heqr =>
          split
          next hau =>
            exact Or.inr ⟨r, heqr, hau, hstatus r heqr, rfl⟩
          next hau => exact Or.inl rfl
        next heqr => exact Or.inl rfl
      next heq2 => exact Or.inl rfl
  · intro info hlk hmiss hfail
    have hnone : (process_tts_task synth now cache mgr tid).1 = none := by
      rcases hchar with hnone | ⟨i2, a2, d2, s2, heq, hg, hc, _⟩ | ⟨i2, heq, ha, _⟩
      · exact hnone
      · rw [hlk] at heq
        obtain rfl := Option.some.inj heq
        rw [hmiss hc] at hg
        cases hg
      · rw [hlk] at heq
        obtain rfl := Option.some.inj heq
        exact absurd hfail ha
    rw [task_completed_snd]
    split
    · rfl
    · split
      next _i2 heq2 =>
        split
        next r heqr =>
          rw [hnone] at heqr
          cases heqr
        next heqr => rfl
      next heq2 => rfl

/-- C1 witness: the theorem applied on the failure path (the synthesis
capability yields no audio, caching disabled: nothing is published) and on
the success path (the produced record has status `'completed'`). -/
theorem c1_completion_witness :
    (task_completed ⟨3, [0], [(0, ⟨"hi".data, ⟨"hi".data⟩, 0⟩)], [0]⟩ 0 false
      (process_tts_task (fun _ => ([], 0, 0)) 0 ⟨0, []⟩
        ⟨3, [0], [(0, ⟨"hi".data, ⟨"hi".data⟩, 0⟩)], [0]⟩ 0).1 []).2 = [] ∧
    ((create_result 0 ⟨"hi".data⟩ [1] 1 1 "completed").tts_status
        = some "cached" ∨
      (create_result 0 ⟨"hi".data⟩ [1] 1 1 "completed").tts_status
        = some "completed") := by
  have h1 := c1_completion_publishes_one_validated_record_or_nothing
    (fun _ => ([], 0, 0)) 0 ⟨0, []⟩
    ⟨3, [0], [(0, ⟨"hi".data, ⟨"hi".data⟩, 0⟩)], [0]⟩ 0 [] false
  have h2 := c1_completion_publishes_one_validated_record_or_nothing
    (fun _ => ([1], 1, 1)) 0 ⟨0, []⟩
    ⟨3, [0], [(0, ⟨"hi".data, ⟨"hi".data⟩, 0⟩)], [0]⟩ 0 [] false
  exact ⟨h1.2.2 ⟨"hi".data, ⟨"hi".data⟩, 0⟩ rfl (fun hc => absurd hc (by decide))
      rfl,
    h2.2.1 (create_result 0 ⟨"hi".data⟩ [1] 1 1 "completed") rfl⟩

end TTSPipeline
